import Mathlib

/-!
Verification of the jira-dashboard metrics/caching layer against its
natural-language specification.

The development shallowly embeds the relevant parts of the source:

* the frontend preload/persistent cache module
  (`src/frontend/src/components/EvolutionDashboard.tsx`, preloadCache section);
* the MCP Atlassian tool server (`src/unnamed/part_000`);
* the dashboard ratio computations
  (`src/frontend/src/components/AgileDashboard.tsx` and
  `src/frontend/src/components/DeveloperProductivity.tsx`).

JavaScript `Date.now()` timestamps are modelled as `Int` (exact for all
realistic values).  Serialized JSON payloads that no claim inspects are
modelled as opaque values; `JSON.stringify`/`JSON.parse` round-trips on
them are modelled as the identity.  Where IEEE-754 special values matter
(division by zero producing `NaN`/`Infinity`) the numbers are modelled by
an explicit sum type over exact rationals or reals.
-/

/-! ## Client-side persistent cache and preloader

Embedding of the preload cache utility concatenated into
`src/frontend/src/components/EvolutionDashboard.tsx` (lines 344-497):
`persistentCache` (save/load/isValid), the module-level
`preloadedAgileData` / `preloadedExecutiveData` variables, the
`cachePreloader` fetch wrappers and the `getPreloaded*Data` getters.
-/

/-- Cache key for the agile metric family (`AGILE_CACHE_KEY`). -/
def AGILE_CACHE_KEY : String := "jira_agile_cache"

/-- Cache key for the executive metric family (`EXECUTIVE_CACHE_KEY`). -/
def EXECUTIVE_CACHE_KEY : String := "jira_executive_cache"

/-- Shared timestamp key (`CACHE_TIMESTAMP_KEY`); note there is a single
timestamp entry shared by every metric family. -/
def CACHE_TIMESTAMP_KEY : String := "jira_cache_timestamp"

/-- Fixed cache validity window in milliseconds (`CACHE_DURATION`). -/
def CACHE_DURATION : Int := 30000

/-- A value stored in `localStorage`.  The module stores either a
JSON-serialized snapshot (`JSON.stringify(data)`) or a decimal timestamp
string (`Date.now().toString()`); `jsonStr` keeps the deserialized payload
(stringify/parse round-trip modelled as the identity) and `numStr` keeps
the integer (parseInt of the decimal string it denotes). A `load` that
finds a value of the unexpected shape behaves like the failed
parse / NaN age comparison in the source and yields `null`. -/
inductive StoredVal (α : Type) where
  | jsonStr (data : α)
  | numStr (t : Int)
deriving DecidableEq

/-- The browser `localStorage`: a total map from keys to optionally
stored values. -/
structure LS (α : Type) where
  items : String → Option (StoredVal α)

/-- `localStorage.setItem`. -/
def lsSet {α : Type} (s : LS α) (k : String) (v : StoredVal α) : LS α :=
  ⟨fun q => if q = k then some v else s.items q⟩

namespace persistentCache

/-- `persistentCache.save(key, data)` at wall-clock time `now`:
`localStorage.setItem(key, JSON.stringify(data))` followed by
`localStorage.setItem(CACHE_TIMESTAMP_KEY, Date.now().toString())`. -/
def save {α : Type} (s : LS α) (key : String) (data : α) (now : Int) : LS α :=
  lsSet (lsSet s key (.jsonStr data)) CACHE_TIMESTAMP_KEY (.numStr now)

/-- `persistentCache.load(key)` at wall-clock time `now`: returns the
parsed snapshot stored under `key` when both the data and the shared
timestamp are present and `Date.now() - parseInt(timestamp)` is strictly
below `CACHE_DURATION`; otherwise `null`. -/
def load {α : Type} (s : LS α) (key : String) (now : Int) : Option α :=
  match s.items key, s.items CACHE_TIMESTAMP_KEY with
  | some (.jsonStr d), some (.numStr t) =>
      if now - t < CACHE_DURATION then some d else none
  | _, _ => none

/-- `persistentCache.isValid()` at wall-clock time `now`. -/
def isValid {α : Type} (s : LS α) (now : Int) : Bool :=
  match s.items CACHE_TIMESTAMP_KEY with
  | some (.numStr t) => decide (now - t < CACHE_DURATION)
  | _ => false

end persistentCache

/-- Module-level state of the preload cache: the two in-memory snapshot
variables `preloadedAgileData` / `preloadedExecutiveData` plus the
persistent `localStorage`. -/
structure PreloadState (α : Type) where
  memAgile : Option α
  memExec : Option α
  ls : LS α

/-- Outcome of the `fetch` + `response.json()` in a preload: either the
decoded payload or a network/parse failure caught by the `catch` block. -/
inductive FetchOutcome (α : Type) where
  | ok (data : α)
  | failed

namespace cachePreloader

/-- `cachePreloader.preloadAgileMetrics()`: on fetch success, stores the
payload in the in-memory variable and in `localStorage` (via
`persistentCache.save`) and returns it; on failure the `catch` block
returns `preloadedAgileData || persistentCache.load(AGILE_CACHE_KEY)`,
leaving the state unchanged.  First component: the value returned to the
caller; second: the module state afterwards. -/
def preloadAgileMetrics {α : Type} (st : PreloadState α)
    (fetched : FetchOutcome α) (now : Int) : Option α × PreloadState α :=
  match fetched with
  | .ok data =>
      (some data,
       { st with memAgile := some data
                 ls := persistentCache.save st.ls AGILE_CACHE_KEY data now })
  | .failed =>
      (st.memAgile <|> persistentCache.load st.ls AGILE_CACHE_KEY now, st)

/-- `cachePreloader.preloadExecutiveMetrics()`: the executive-family twin
of `preloadAgileMetrics`. -/
def preloadExecutiveMetrics {α : Type} (st : PreloadState α)
    (fetched : FetchOutcome α) (now : Int) : Option α × PreloadState α :=
  match fetched with
  | .ok data =>
      (some data,
       { st with memExec := some data
                 ls := persistentCache.save st.ls EXECUTIVE_CACHE_KEY data now })
  | .failed =>
      (st.memExec <|> persistentCache.load st.ls EXECUTIVE_CACHE_KEY now, st)

end cachePreloader

/-- `getPreloadedAgileData()`:
`preloadedAgileData || persistentCache.load(AGILE_CACHE_KEY)`. -/
def getPreloadedAgileData {α : Type} (st : PreloadState α) (now : Int) : Option α :=
  st.memAgile <|> persistentCache.load st.ls AGILE_CACHE_KEY now

/-- `getPreloadedExecutiveData()`:
`preloadedExecutiveData || persistentCache.load(EXECUTIVE_CACHE_KEY)`. -/
def getPreloadedExecutiveData {α : Type} (st : PreloadState α) (now : Int) : Option α :=
  st.memExec <|> persistentCache.load st.ls EXECUTIVE_CACHE_KEY now

/-! ## MCP Atlassian tool server

Embedding of `src/unnamed/part_000` (`AtlassianServer`): `makeRequest`,
the seventeen tool operations, and the `CallToolRequestSchema` handler
with its surrounding `try`/`catch`.

Upstream JSON payloads are carried as opaque `String`s (no claim inspects
their structure); `response.json()` followed later by
`JSON.stringify(result, null, 2)` is modelled as the identity on that
carrier.  Request bodies are likewise opaque; the operations that send a
body are modelled with a fixed placeholder body since no claim inspects
request bodies.  Query parameter values keep their JavaScript type
(string / number / boolean) instead of being rendered to URL text. -/

/-- A query-string value appended via `url.searchParams.append`. -/
inductive QueryVal where
  | str (s : String)
  | int (n : Int)
  | bool (b : Bool)
deriving DecidableEq

/-- An HTTP request as assembled by `makeRequest` (endpoint below
`/rest/api/3`, method, optional JSON body, query parameters). -/
structure HttpRequest where
  endpoint : String
  method : String
  body : Option String
  query : List (String × QueryVal)
deriving DecidableEq

/-- The part of a `fetch` response that `makeRequest` consumes: `ok`,
`status`, `statusText`, the error text read on failure, and the JSON
payload read on success. -/
structure HttpResponse where
  ok : Bool
  status : Nat
  statusText : String
  errorText : String
  body : String
deriving DecidableEq

/-- The upstream HTTP world: what `fetch` answers to each request. -/
def HttpEnv : Type := HttpRequest → HttpResponse

/-- The `params` URL-building loop of `makeRequest`: parameters whose
value is `undefined`/`null` are skipped, the rest are appended in
order. -/
def buildQuery (ps : List (String × Option QueryVal)) : List (String × QueryVal) :=
  ps.filterMap (fun p => p.2.map (fun v => (p.1, v)))

/-- `AtlassianServer.makeRequest(endpoint, method, body, params)`: issues
the request and throws `API request failed: {status} {statusText} -
{errorText}` on a non-ok response, otherwise returns the JSON payload. -/
def makeRequest (env : HttpEnv) (endpoint : String) (method : String)
    (body : Option String) (params : List (String × Option QueryVal)) :
    Except String String :=
  let resp := env ⟨endpoint, method, body, buildQuery params⟩
  if resp.ok then Except.ok resp.body
  else Except.error ("API request failed: " ++ toString resp.status ++ " "
    ++ resp.statusText ++ " - " ++ resp.errorText)

/-- The argument object of a tool call: every field any of the seventeen
operations destructures, each optional (absent = `undefined`). -/
structure ToolArgs where
  jql : Option String := none
  maxResults : Option Int := none
  startAt : Option Int := none
  fields : Option (List String) := none
  expand : Option (List String) := none
  issueKey : Option String := none
  projectKey : Option String := none
  query : Option String := none
  recent : Option Int := none
  notifyUsers : Option Bool := none
  adjustEstimate : Option String := none
  newEstimate : Option String := none
  reduceBy : Option String := none

/-- The all-`undefined` argument object `{}`. -/
def ToolArgs.empty : ToolArgs := {}

/-- A tool-call result: the single `{type: "text", text: ...}` content
item every operation (and the error path) returns. -/
structure ToolResponse where
  text : String
deriving DecidableEq

/-- JavaScript template-string interpolation of a possibly-`undefined`
value (an absent `issueKey` renders as the text `undefined`). -/
def strOf (o : Option String) : String := o.getD "undefined"

/-- `array.join(',')`. -/
def joinComma (xs : List String) : String := String.intercalate "," xs

/-- The `fields`/`expand` pattern `if (xs && xs.length > 0) params.k =
xs.join(',')`: the parameter contributed to the params object, if any. -/
def joinedParam (k : String) (o : Option (List String)) :
    List (String × Option QueryVal) :=
  match o with
  | some xs => if xs.length > 0 then [(k, some (.str (joinComma xs)))] else []
  | none => []

/-- `AtlassianServer.searchIssues`. -/
def searchIssues (args : ToolArgs) (env : HttpEnv) : Except String ToolResponse :=
  let maxResults := args.maxResults.getD 50
  let startAt := args.startAt.getD 0
  let params := [("jql", args.jql.map .str),
                 ("maxResults", some (.int maxResults)),
                 ("startAt", some (.int startAt))]
                ++ joinedParam "fields" args.fields
  (makeRequest env "/search" "GET" none params).map (fun b => ⟨b⟩)

/-- `AtlassianServer.getIssue`. -/
def getIssue (args : ToolArgs) (env : HttpEnv) : Except String ToolResponse :=
  let params := joinedParam "fields" args.fields ++ joinedParam "expand" args.expand
  (makeRequest env ("/issue/" ++ strOf args.issueKey) "GET" none params).map
    (fun b => ⟨b⟩)

/-- `AtlassianServer.createIssue` (the built `issueData` body is opaque
to every claim and carried as a placeholder). -/
def createIssue (args : ToolArgs) (env : HttpEnv) : Except String ToolResponse :=
  (makeRequest env "/issue" "POST" (some "issueData") []).map (fun b => ⟨b⟩)

/-- `AtlassianServer.updateIssue`: sends the update and returns the fixed
success message rather than the response payload. -/
def updateIssue (args : ToolArgs) (env : HttpEnv) : Except String ToolResponse :=
  let notifyUsers := args.notifyUsers.getD true
  let params := [("notifyUsers", some (.bool notifyUsers))]
  (makeRequest env ("/issue/" ++ strOf args.issueKey) "PUT" (some "fields") params).map
    (fun _ => ⟨"Issue " ++ strOf args.issueKey ++ " updated successfully"⟩)

/-- `AtlassianServer.transitionIssue`: posts the transition and returns
the fixed success message. -/
def transitionIssue (args : ToolArgs) (env : HttpEnv) : Except String ToolResponse :=
  (makeRequest env ("/issue/" ++ strOf args.issueKey ++ "/transitions") "POST"
      (some "transitionData") []).map
    (fun _ => ⟨"Issue " ++ strOf args.issueKey ++ " transitioned successfully"⟩)

/-- `AtlassianServer.getIssueTransitions`. -/
def getIssueTransitions (args : ToolArgs) (env : HttpEnv) : Except String ToolResponse :=
  (makeRequest env ("/issue/" ++ strOf args.issueKey ++ "/transitions") "GET"
      none []).map (fun b => ⟨b⟩)

/-- `AtlassianServer.addComment`. -/
def addComment (args : ToolArgs) (env : HttpEnv) : Except String ToolResponse :=
  (makeRequest env ("/issue/" ++ strOf args.issueKey ++ "/comment") "POST"
      (some "commentData") []).map (fun b => ⟨b⟩)

/-- `AtlassianServer.getComments`. -/
def getComments (args : ToolArgs) (env : HttpEnv) : Except String ToolResponse :=
  let startAt := args.startAt.getD 0
  let maxResults := args.maxResults.getD 50
  let params := [("startAt", some (.int startAt)),
                 ("maxResults", some (.int maxResults))]
  (makeRequest env ("/issue/" ++ strOf args.issueKey ++ "/comment") "GET"
      none params).map (fun b => ⟨b⟩)

/-- `AtlassianServer.getProjects` (`if (recent)`: a zero count is falsy
and is skipped, mirroring JavaScript truthiness). -/
def getProjects (args : ToolArgs) (env : HttpEnv) : Except String ToolResponse :=
  let recentParam : List (String × Option QueryVal) :=
    match args.recent with
    | some r => if r ≠ 0 then [("recent", some (.int r))] else []
    | none => []
  let params := joinedParam "expand" args.expand ++ recentParam
  (makeRequest env "/project/search" "GET" none params).map (fun b => ⟨b⟩)

/-- `AtlassianServer.getProject`. -/
def getProject (args : ToolArgs) (env : HttpEnv) : Except String ToolResponse :=
  let params := joinedParam "expand" args.expand
  (makeRequest env ("/project/" ++ strOf args.projectKey) "GET" none params).map
    (fun b => ⟨b⟩)

/-- `AtlassianServer.searchUsers`. -/
def searchUsers (args : ToolArgs) (env : HttpEnv) : Except String ToolResponse :=
  let maxResults := args.maxResults.getD 50
  let startAt := args.startAt.getD 0
  let params := [("query", args.query.map .str),
                 ("maxResults", some (.int maxResults)),
                 ("startAt", some (.int startAt))]
  (makeRequest env "/user/search" "GET" none params).map (fun b => ⟨b⟩)

/-- `AtlassianServer.getCurrentUser`. -/
def getCurrentUser (args : ToolArgs) (env : HttpEnv) : Except String ToolResponse :=
  let params := joinedParam "expand" args.expand
  (makeRequest env "/myself" "GET" none params).map (fun b => ⟨b⟩)

/-- `AtlassianServer.addWorklog` (`if (newEstimate)` / `if (reduceBy)`:
an empty string is falsy and is skipped). -/
def addWorklog (args : ToolArgs) (env : HttpEnv) : Except String ToolResponse :=
  let adjustEstimate := args.adjustEstimate.getD "auto"
  let truthyParam (k : String) (o : Option String) :
      List (String × Option QueryVal) :=
    match o with
    | some s => if s ≠ "" then [(k, some (.str s))] else []
    | none => []
  let params := [("adjustEstimate", some (.str adjustEstimate))]
                ++ truthyParam "newEstimate" args.newEstimate
                ++ truthyParam "reduceBy" args.reduceBy
  (makeRequest env ("/issue/" ++ strOf args.issueKey ++ "/worklog") "POST"
      (some "worklogData") params).map (fun b => ⟨b⟩)

/-- `AtlassianServer.getWorklogs`: note the single request with the huge
default result cap `maxResults = 1048576`. -/
def getWorklogs (args : ToolArgs) (env : HttpEnv) : Except String ToolResponse :=
  let startAt := args.startAt.getD 0
  let maxResults := args.maxResults.getD 1048576
  let params := [("startAt", some (.int startAt)),
                 ("maxResults", some (.int maxResults))]
  (makeRequest env ("/issue/" ++ strOf args.issueKey ++ "/worklog") "GET"
      none params).map (fun b => ⟨b⟩)

/-- `AtlassianServer.getIssueTypes`. -/
def getIssueTypes (args : ToolArgs) (env : HttpEnv) : Except String ToolResponse :=
  (makeRequest env "/issuetype" "GET" none []).map (fun b => ⟨b⟩)

/-- `AtlassianServer.getStatuses`. -/
def getStatuses (args : ToolArgs) (env : HttpEnv) : Except String ToolResponse :=
  (makeRequest env "/status" "GET" none []).map (fun b => ⟨b⟩)

/-- `AtlassianServer.getPriorities`. -/
def getPriorities (args : ToolArgs) (env : HttpEnv) : Except String ToolResponse :=
  (makeRequest env "/priority" "GET" none []).map (fun b => ⟨b⟩)

/-- The seventeen tool names of the `switch` in the call-tool handler. -/
def toolNames : List String :=
  ["search_issues", "get_issue", "create_issue", "update_issue",
   "transition_issue", "get_issue_transitions", "add_comment", "get_comments",
   "get_projects", "get_project", "search_users", "get_current_user",
   "add_worklog", "get_worklogs", "get_issue_types", "get_statuses",
   "get_priorities"]

/-- The `switch (name)` dispatch inside the `try` block of the
`CallToolRequestSchema` handler; the `default` branch throws
`Unknown tool: {name}`. -/
def dispatchTool (name : String) (args : ToolArgs) (env : HttpEnv) :
    Except String ToolResponse :=
  match name with
  | "search_issues" => searchIssues args env
  | "get_issue" => getIssue args env
  | "create_issue" => createIssue args env
  | "update_issue" => updateIssue args env
  | "transition_issue" => transitionIssue args env
  | "get_issue_transitions" => getIssueTransitions args env
  | "add_comment" => addComment args env
  | "get_comments" => getComments args env
  | "get_projects" => getProjects args env
  | "get_project" => getProject args env
  | "search_users" => searchUsers args env
  | "get_current_user" => getCurrentUser args env
  | "add_worklog" => addWorklog args env
  | "get_worklogs" => getWorklogs args env
  | "get_issue_types" => getIssueTypes args env
  | "get_statuses" => getStatuses args env
  | "get_priorities" => getPriorities args env
  | _ => Except.error ("Unknown tool: " ++ name)

/-- The whole `CallToolRequestSchema` handler: the `try`/`catch` around
the dispatch turns any thrown error into a returned content item whose
text is `Error: {error.message}`. -/
def callToolHandler (name : String) (args : ToolArgs) (env : HttpEnv) :
    ToolResponse :=
  match dispatchTool name args env with
  | Except.ok r => r
  | Except.error e => ⟨"Error: " ++ e⟩

/-- An upstream that fails every request with the given status line and
error body. -/
def constFailEnv (status : Nat) (statusText errorText : String) : HttpEnv :=
  fun _ => ⟨false, status, statusText, errorText, ""⟩

/-- Rendering of a collection of issues/worklogs as an (opaque) JSON
payload for the paged upstream model. -/
def encodeIssues (xs : List String) : String := String.intercalate "," xs

/-- A paged upstream holding the full result set `L`: each request is
answered with the slice of `L` starting at the requested `startAt`,
bounded both by the requested `maxResults` and by the page
bound of the server itself `serverLimit` (the spec: "upstream returns bounded pages"). -/
def pagedEnv (L : List String) (serverLimit : Nat) : HttpEnv := fun req =>
  let s : Nat := match req.query.lookup "startAt" with
    | some (.int n) => n.toNat
    | _ => 0
  let m : Nat := match req.query.lookup "maxResults" with
    | some (.int n) => n.toNat
    | _ => 50
  ⟨true, 200, "OK", "", encodeIssues ((L.drop s).take (min m serverLimit))⟩

/-- Modelled from the spec: the result of transparently paging through
the upstream result set `L` — issuing repeated requests advancing the
offset, concatenating the pages in discovery order, until the set is
exhausted or the result-count cap is reached.  Since consecutive pages
are consecutive slices of `L`, the concatenation is exactly the first
`cap` elements of `L`. -/
def pageThroughSpec (L : List String) (cap : Nat) : List String := L.take cap

/-! ## Dashboard ratio computations

The dashboards compute their ratios with IEEE-754 doubles.  The claims
about them concern division by zero (`NaN` / `Infinity`) and exact
formula structure, not rounding error, so a JavaScript number is modelled
as either an exact finite value or one of the special values `NaN`,
`Infinity`, `-Infinity`.  `JSQ` carries finite values as rationals (all
operations the embedded code performs on them are rational-exact);
`JSR`, used only for the consistency score whose formula takes a square
root, carries them as reals.  JavaScript has no negative zero in this
values reachable in this fragment, so `0` is treated as `+0`. -/

/-- A JavaScript number with exact finite part. -/
inductive JSQ where
  | num (q : ℚ)
  | nan
  | pinf
  | ninf
deriving DecidableEq

namespace JSQ

/-- JavaScript unary minus. -/
def neg : JSQ → JSQ
  | num q => num (-q)
  | nan => nan
  | pinf => ninf
  | ninf => pinf

/-- JavaScript `+`. -/
def add : JSQ → JSQ → JSQ
  | nan, _ => nan
  | _, nan => nan
  | pinf, ninf => nan
  | ninf, pinf => nan
  | pinf, _ => pinf
  | _, pinf => pinf
  | ninf, _ => ninf
  | _, ninf => ninf
  | num a, num b => num (a + b)

/-- JavaScript `-`. -/
def sub (a b : JSQ) : JSQ := add a (neg b)

/-- JavaScript `*` (`0 * Infinity` is `NaN`). -/
def mul : JSQ → JSQ → JSQ
  | nan, _ => nan
  | _, nan => nan
  | num a, num b => num (a * b)
  | num a, pinf => if a = 0 then nan else if 0 < a then pinf else ninf
  | num a, ninf => if a = 0 then nan else if 0 < a then ninf else pinf
  | pinf, num b => if b = 0 then nan else if 0 < b then pinf else ninf
  | ninf, num b => if b = 0 then nan else if 0 < b then ninf else pinf
  | pinf, pinf => pinf
  | pinf, ninf => ninf
  | ninf, pinf => ninf
  | ninf, ninf => pinf

/-- JavaScript `/` (`0/0` is `NaN`, `x/0` is `±Infinity` for `x ≠ 0`). -/
def div : JSQ → JSQ → JSQ
  | nan, _ => nan
  | _, nan => nan
  | num a, num b =>
      if b = 0 then (if a = 0 then nan else if 0 < a then pinf else ninf)
      else num (a / b)
  | num _, pinf => num 0
  | num _, ninf => num 0
  | pinf, num b => if 0 ≤ b then pinf else ninf
  | ninf, num b => if 0 ≤ b then ninf else pinf
  | pinf, _ => nan
  | ninf, _ => nan

/-- JavaScript `Math.min` (`NaN` wins). -/
def jsMin : JSQ → JSQ → JSQ
  | nan, _ => nan
  | _, nan => nan
  | ninf, _ => ninf
  | _, ninf => ninf
  | pinf, b => b
  | a, pinf => a
  | num a, num b => num (min a b)

/-- JavaScript `Math.max` (`NaN` wins). -/
def jsMax : JSQ → JSQ → JSQ
  | nan, _ => nan
  | _, nan => nan
  | pinf, _ => pinf
  | _, pinf => pinf
  | ninf, b => b
  | a, ninf => a
  | num a, num b => num (max a b)

/-- JavaScript `Math.round`: for finite values `⌊x + 1/2⌋`, which
the Mathlib `round` computes; special values pass through. -/
def jsRound : JSQ → JSQ
  | num q => num ((round q : ℤ) : ℚ)
  | nan => nan
  | pinf => pinf
  | ninf => ninf

end JSQ

/-- The `effortProgress.percentage` computation of
`src/frontend/src/components/AgileDashboard.tsx` (lines 218-222):
`Math.round((completed_hours / (completed_hours + remaining_hours)) *
100)`, on finite inputs `completed` and `remaining`. -/
def effortProgressPercentage (completed remaining : ℚ) : JSQ :=
  JSQ.jsRound (JSQ.mul (JSQ.div (.num completed)
    (JSQ.add (.num completed) (.num remaining))) (.num 100))

/-- The `Velocidade` entry of `radarData` in
`src/frontend/src/components/DeveloperProductivity.tsx` (line 119):
`Math.min(100, ((before_claude_avg_hours - after_claude_avg_hours) /
before_claude_avg_hours) * 100)`. -/
def velocidadeValue (before after : ℚ) : JSQ :=
  JSQ.jsMin (.num 100)
    (JSQ.mul (JSQ.div (JSQ.sub (.num before) (.num after)) (.num before)) (.num 100))

/-- `Modelled from the spec:` the backend Productivity Comparator that
produces the `productivity_improvement` field is part of this
Python backend of this repository, which is not under `src/` (only its
frontend consumer and the README formula are).  Spec section 4.3:
`productivity_improvement = (before_avg − after_avg) / before_avg × 100`,
reporting 0 (not NaN/Infinity) when `before_avg` is 0. -/
def productivityImprovementSpec (beforeAvg afterAvg : ℚ) : ℚ :=
  if beforeAvg = 0 then 0 else (beforeAvg - afterAvg) / beforeAvg * 100

/-- Rounding of a percentage to one decimal place, as the UI
`toFixed(1)` display performs on the (non-tie) values at issue. -/
def roundTo1 (q : ℚ) : ℚ := ((round (q * 10) : ℤ) : ℚ) / 10

/-- A JavaScript number over the reals, for the one computation whose
formula takes a square root. -/
inductive JSR where
  | num (x : ℝ)
  | nan
  | pinf
  | ninf

namespace JSR

/-- JavaScript `/` on reals (`0/0` is `NaN`, `x/0` is `±Infinity`). -/
noncomputable def div : JSR → JSR → JSR
  | nan, _ => nan
  | _, nan => nan
  | num a, num b =>
      if b = 0 then (if a = 0 then nan else if 0 < a then pinf else ninf)
      else num (a / b)
  | num _, pinf => num 0
  | num _, ninf => num 0
  | pinf, num b => if 0 ≤ b then pinf else ninf
  | ninf, num b => if 0 ≤ b then ninf else pinf
  | pinf, _ => nan
  | ninf, _ => nan

/-- JavaScript `*` restricted to a finite right factor `100`, the only
multiplication the consistency score performs on a possibly-special
value. -/
noncomputable def mul100 : JSR → JSR
  | num a => num (a * 100)
  | nan => nan
  | pinf => pinf
  | ninf => ninf

/-- JavaScript `100 - x`. -/
noncomputable def oneHundredSub : JSR → JSR
  | num a => num (100 - a)
  | nan => nan
  | pinf => ninf
  | ninf => pinf

/-- JavaScript `Math.min(100, x)`. -/
noncomputable def min100 : JSR → JSR
  | num a => num (min 100 a)
  | nan => nan
  | pinf => num 100
  | ninf => ninf

/-- JavaScript `Math.max(0, x)` (`Math.max(0, -Infinity)` is `0`). -/
noncomputable def max0 : JSR → JSR
  | num a => num (max 0 a)
  | nan => nan
  | pinf => pinf
  | ninf => num 0

end JSR

/-- `monthlyHours.reduce((a, b) => a + b, 0) / monthlyHours.length`
(`avgHours` in `src/frontend/src/components/DeveloperProductivity.tsx`,
line 111).  On a non-empty list every operation here is finite. -/
noncomputable def avgHours (xs : List ℝ) : ℝ :=
  xs.foldl (fun a b => a + b) 0 / xs.length

/-- `monthlyHours.reduce((acc, hour) => acc + Math.pow(hour - avgHours,
2), 0) / monthlyHours.length` (`variance`, line 112). -/
noncomputable def varianceJS (xs : List ℝ) : ℝ :=
  xs.foldl (fun acc hour => acc + (hour - avgHours xs) ^ 2) 0 / xs.length

/-- `Math.sqrt(variance)` (`standardDeviation`, line 113). -/
noncomputable def standardDeviation (xs : List ℝ) : ℝ :=
  Real.sqrt (varianceJS xs)

/-- `consistencyScore = Math.max(0, Math.min(100, 100 -
(standardDeviation / avgHours) * 100))` (line 114).  For a non-empty
input every intermediate value up to the standard deviation is a finite
real; the one division that can produce a special value is
`standardDeviation / avgHours`, carried through the `JSR` operations. -/
noncomputable def consistencyScore (xs : List ℝ) : JSR :=
  JSR.max0 (JSR.min100 (JSR.oneHundredSub (JSR.mul100
    (JSR.div (.num (standardDeviation xs)) (.num (avgHours xs))))))

/-- Spec-side arithmetic mean of a list of monthly values. -/
noncomputable def meanSpec (xs : List ℝ) : ℝ := xs.sum / xs.length

/-- Spec-side (population) standard deviation. -/
noncomputable def stddevSpec (xs : List ℝ) : ℝ :=
  Real.sqrt (((xs.map (fun x => (x - meanSpec xs) ^ 2)).sum) / xs.length)

/-- Spec-side consistency score: `100 − (stddev / mean) × 100`, clamped
to the interval `[0, 100]`. -/
noncomputable def consistencySpec (xs : List ℝ) : ℝ :=
  max 0 (min 100 (100 - stddevSpec xs / meanSpec xs * 100))

/-! ## Theorems -/

/-- C3: the persistent cache enforces the fixed validity window: given
that a snapshot is stored under `key`, `persistentCache.load` returns
exactly that snapshot precisely when a stored timestamp exists and the
elapsed time since it is strictly less than 30000 ms; in every other
case the load returns `null`. -/
theorem load_enforces_validity_window {α : Type} (s : LS α) (key : String)
    (d : α) (now : Int) (h : s.items key = some (.jsonStr d)) :
    (persistentCache.load s key now = some d ↔
      ∃ t : Int, s.items CACHE_TIMESTAMP_KEY = some (.numStr t) ∧ now - t < 30000)
    ∧ (persistentCache.load s key now = some d ∨
       persistentCache.load s key now = none) := by
  unfold persistentCache.load
  rw [h]
  rcases hts : s.items CACHE_TIMESTAMP_KEY with _ | (d2 | t)
  · simp
  · simp
  · by_cases hlt : now - t < 30000
    · simp [CACHE_DURATION, hlt]
    · simp [CACHE_DURATION, hlt]

/-- Witness for C3 at a concrete store, key and clock. -/
theorem load_enforces_validity_window_witness :
    persistentCache.load
      (⟨fun q => if q = "k" then some (.jsonStr (3 : Nat))
                 else if q = CACHE_TIMESTAMP_KEY then some (.numStr 100)
                 else none⟩ : LS Nat) "k" 200 = some 3 :=
  ((load_enforces_validity_window _ "k" 3 200 (by decide)).1).mpr
    ⟨100, by decide, by decide⟩

/-- C4: when the network fetch fails, the preload of a metric family
returns the last good snapshot — the in-memory copy when present,
otherwise whatever the persistent cache yields — instead of propagating
the failure, for both the agile and the executive family. -/
theorem preload_failure_returns_cached {α : Type} :
    (∀ (st : PreloadState α) (now : Int) (d : α), st.memAgile = some d →
        (cachePreloader.preloadAgileMetrics st .failed now).1 = some d)
    ∧ (∀ (st : PreloadState α) (now : Int), st.memAgile = none →
        (cachePreloader.preloadAgileMetrics st .failed now).1
          = persistentCache.load st.ls AGILE_CACHE_KEY now)
    ∧ (∀ (st : PreloadState α) (now : Int) (d : α), st.memExec = some d →
        (cachePreloader.preloadExecutiveMetrics st .failed now).1 = some d)
    ∧ (∀ (st : PreloadState α) (now : Int), st.memExec = none →
        (cachePreloader.preloadExecutiveMetrics st .failed now).1
          = persistentCache.load st.ls EXECUTIVE_CACHE_KEY now) := by
  refine ⟨?_, ?_, ?_, ?_⟩
  · intro st now d hmem
    simp [cachePreloader.preloadAgileMetrics, hmem]
  · intro st now hmem
    simp [cachePreloader.preloadAgileMetrics, hmem]
  · intro st now d hmem
    simp [cachePreloader.preloadExecutiveMetrics, hmem]
  · intro st now hmem
    simp [cachePreloader.preloadExecutiveMetrics, hmem]

/-- Witness for C4: a failed agile preload with an in-memory snapshot
returns that snapshot. -/
theorem preload_failure_returns_cached_witness :
    (cachePreloader.preloadAgileMetrics
      (⟨some 7, none, ⟨fun _ => none⟩⟩ : PreloadState Nat) .failed 0).1 = some 7 :=
  preload_failure_returns_cached.1 ⟨some 7, none, ⟨fun _ => none⟩⟩ 0 7 rfl

/-- C9: saving a snapshot for one metric family overwrites the single
shared cache timestamp: after family `kA` is saved at time `t`, a load
of family `kB` at any time within 30000 ms of `t` returns the snapshot
previously stored for `kB`, no matter how long ago (`t0`) `kB` itself
was saved. -/
theorem save_refreshes_other_family {α : Type} (s : LS α) (kA kB : String)
    (dA dB : α) (t0 t tq : Int)
    (hAB : kA ≠ kB) (hA : kA ≠ CACHE_TIMESTAMP_KEY) (hB : kB ≠ CACHE_TIMESTAMP_KEY)
    (hfresh : tq - t < 30000) :
    persistentCache.load
      (persistentCache.save (persistentCache.save s kB dB t0) kA dA t) kB tq
      = some dB := by
  simp [persistentCache.load, persistentCache.save, lsSet, hB, Ne.symm hAB,
    CACHE_DURATION, hfresh]

/-- Witness for C9: the agile family saved at t = 5000000 refreshes the
observed freshness of the executive family even though the executive snapshot
was stored a billion milliseconds earlier. -/
theorem save_refreshes_other_family_witness :
    persistentCache.load
      (persistentCache.save
        (persistentCache.save (⟨fun _ => none⟩ : LS Nat)
          EXECUTIVE_CACHE_KEY 1 (-1000000000))
        AGILE_CACHE_KEY 2 5000000)
      EXECUTIVE_CACHE_KEY 5000100 = some 1 :=
  save_refreshes_other_family _ AGILE_CACHE_KEY EXECUTIVE_CACHE_KEY 2 1
    (-1000000000) 5000000 5000100 (by decide) (by decide) (by decide) (by decide)

/-- C10: the in-memory preloaded snapshot bypasses the validity window:
after a successful preload the getter returns the in-memory snapshot at
every later clock value, with no age check, for both families; only when
the in-memory variable is empty does the getter fall back to
`persistentCache.load`, which is the sole place the 30000 ms window is
enforced. -/
theorem preloaded_getter_bypasses_window {α : Type} :
    (∀ (st : PreloadState α) (d : α) (now0 now : Int),
        getPreloadedAgileData
          (cachePreloader.preloadAgileMetrics st (.ok d) now0).2 now = some d)
    ∧ (∀ (st : PreloadState α) (now : Int), st.memAgile = none →
        getPreloadedAgileData st now
          = persistentCache.load st.ls AGILE_CACHE_KEY now)
    ∧ (∀ (st : PreloadState α) (d : α) (now0 now : Int),
        getPreloadedExecutiveData
          (cachePreloader.preloadExecutiveMetrics st (.ok d) now0).2 now = some d)
    ∧ (∀ (st : PreloadState α) (now : Int), st.memExec = none →
        getPreloadedExecutiveData st now
          = persistentCache.load st.ls EXECUTIVE_CACHE_KEY now) := by
  refine ⟨?_, ?_, ?_, ?_⟩
  · intro st d now0 now
    simp [getPreloadedAgileData, cachePreloader.preloadAgileMetrics]
  · intro st now hmem
    simp [getPreloadedAgileData, hmem]
  · intro st d now0 now
    simp [getPreloadedExecutiveData, cachePreloader.preloadExecutiveMetrics]
  · intro st now hmem
    simp [getPreloadedExecutiveData, hmem]

/-- Witness for C10: a snapshot preloaded at time 0 is still served by
the getter a billion milliseconds later. -/
theorem preloaded_getter_bypasses_window_witness :
    getPreloadedAgileData
      (cachePreloader.preloadAgileMetrics
        (⟨none, none, ⟨fun _ => none⟩⟩ : PreloadState Nat) (.ok 9) 0).2
      1000000000 = some 9 :=
  preloaded_getter_bypasses_window.1 ⟨none, none, ⟨fun _ => none⟩⟩ 9 0 1000000000

/-- C1 (counterexample): against a paged upstream holding three results
with a server page bound of one, a `search_issues` call returns only the
first page — not the concatenation of all pages that transparent paging
(offset advanced until exhaustion or the result-count cap of 50) would
produce.  The fetch operations issue a single request and never loop. -/
theorem searchIssues_not_paged_cex :
    searchIssues { ToolArgs.empty with jql := some "q" }
        (pagedEnv ["i1", "i2", "i3"] 1)
      = Except.ok ⟨"i1"⟩
    ∧ "i1" ≠ encodeIssues (pageThroughSpec ["i1", "i2", "i3"] 50) :=
  ⟨rfl, by decide⟩

/-- C1 (amended): each fetch operation issues exactly one bounded
request at the caller-supplied offset: against a paged upstream it
returns the single page starting at `startAt`, truncated by both the
requested `maxResults` and the server page bound — for `search_issues`
and for `get_worklogs` alike.  Paging across pages is left to the
caller via `startAt`. -/
theorem fetch_returns_single_page (L : List String) (limit : Nat)
    (jq key : String) (s m : Int) :
    searchIssues
        { ToolArgs.empty with jql := some jq, startAt := some s, maxResults := some m }
        (pagedEnv L limit)
      = Except.ok ⟨encodeIssues ((L.drop s.toNat).take (min m.toNat limit))⟩
    ∧ getWorklogs
        { ToolArgs.empty with issueKey := some key, startAt := some s, maxResults := some m }
        (pagedEnv L limit)
      = Except.ok ⟨encodeIssues ((L.drop s.toNat).take (min m.toNat limit))⟩ :=
  ⟨rfl, rfl⟩

/-- C2: the call-tool handler never propagates an exception: a
successful dispatch result is returned as-is, any thrown error is
returned as a content item whose text is `Error: ` followed by the
human-readable message, and in particular for every named tool a non-ok
upstream HTTP response produces the `API request failed` error text. -/
theorem callToolHandler_never_throws (name : String) (args : ToolArgs)
    (env : HttpEnv) :
    (∀ r, dispatchTool name args env = Except.ok r →
        callToolHandler name args env = r)
    ∧ (∀ m, dispatchTool name args env = Except.error m →
        callToolHandler name args env = ⟨"Error: " ++ m⟩)
    ∧ (name ∈ toolNames → ∀ (status : Nat) (stext etext : String),
        callToolHandler name args (constFailEnv status stext etext)
          = ⟨"Error: " ++ ("API request failed: " ++ toString status ++ " "
              ++ stext ++ " - " ++ etext)⟩) := by
  refine ⟨?_, ?_, ?_⟩
  · intro r hd
    unfold callToolHandler
    rw [hd]
  · intro m hd
    unfold callToolHandler
    rw [hd]
  · intro hmem status stext etext
    simp only [toolNames, List.mem_cons, List.mem_singleton,
      List.not_mem_nil, or_false] at hmem
    rcases hmem with h|h|h|h|h|h|h|h|h|h|h|h|h|h|h|h|h <;> subst h <;> rfl

/-- Witness for C2: a `search_issues` call against an upstream that
answers 500 yields the wrapped error text. -/
theorem callToolHandler_never_throws_witness :
    callToolHandler "search_issues" ToolArgs.empty
        (constFailEnv 500 "Internal Server Error" "upstream down")
      = ⟨"Error: " ++ ("API request failed: " ++ toString 500 ++ " "
          ++ "Internal Server Error" ++ " - " ++ "upstream down")⟩ :=
  (callToolHandler_never_throws "search_issues" ToolArgs.empty
      (constFailEnv 500 "Internal Server Error" "upstream down")).2.2
    (by decide) 500 "Internal Server Error" "upstream down"

/-- C6 (counterexample): with `before_avg = 0` and `after_avg = 9` the
cited productivity-improvement computation evaluates to `-Infinity`, not
to the graceful 0 the claim asserts. -/
theorem velocidade_zero_before_cex :
    velocidadeValue 0 9 = JSQ.ninf ∧ JSQ.ninf ≠ JSQ.num 0 := by
  constructor
  · norm_num [velocidadeValue, JSQ.sub, JSQ.neg, JSQ.add, JSQ.div, JSQ.mul,
      JSQ.jsMin]
  · simp

/-- C6 (amended): for `after_avg ≥ 0` the computed value equals
`(before_avg − after_avg) / before_avg × 100` whenever `before_avg > 0`
(the `Math.min(100, ·)` cap is inactive there); when `before_avg = 0`
the computation does not report 0: it evaluates to `NaN` if `after_avg`
is also 0 and to `-Infinity` if `after_avg > 0`. -/
theorem velocidade_formula_and_zero_case (b a : ℚ) (ha : 0 ≤ a) :
    (0 < b → velocidadeValue b a = JSQ.num ((b - a) / b * 100))
    ∧ (b = 0 → velocidadeValue b a = if a = 0 then JSQ.nan else JSQ.ninf) := by
  constructor
  · intro hb
    have hb0 : b ≠ 0 := ne_of_gt hb
    have h1 : (b - a) / b ≤ 1 := by
      rw [div_le_one hb]
      linarith
    have h2 : (b - a) / b * 100 ≤ 100 := by nlinarith
    simp only [velocidadeValue, JSQ.sub, JSQ.neg, JSQ.add, JSQ.div, JSQ.mul,
      JSQ.jsMin, ← sub_eq_add_neg, if_neg hb0]
    rw [min_eq_right h2]
  · intro hb
    subst hb
    by_cases ha0 : a = 0
    · subst ha0
      norm_num [velocidadeValue, JSQ.sub, JSQ.neg, JSQ.add, JSQ.div, JSQ.mul,
        JSQ.jsMin]
    · have haneg : ¬(0 < -a) := by
        intro hcon
        exact ha0 (le_antisymm (by linarith) ha)
      simp [velocidadeValue, JSQ.sub, JSQ.neg, JSQ.add, JSQ.div, JSQ.mul,
        JSQ.jsMin, ha0, haneg, neg_eq_zero]

/-- Witness for C6 (amended) at `before_avg = 10`, `after_avg = 5`. -/
theorem velocidade_formula_witness :
    velocidadeValue 10 5 = JSQ.num ((10 - 5) / 10 * 100) :=
  (velocidade_formula_and_zero_case 10 5 (by norm_num)).1 (by norm_num)

/-- C7: with `before_avg = 85` and `after_avg = 9` the
productivity-improvement formula yields `1520/17 = 89.41...%`, strictly
between 89.41 and 89.42, and rounds to 89.4 at one-decimal precision;
the spec-side comparator formula agrees. -/
theorem improvement_85_9_rounds_to_89_4 :
    velocidadeValue 85 9 = JSQ.num (1520 / 17)
    ∧ productivityImprovementSpec 85 9 = 1520 / 17
    ∧ (8941 / 100 : ℚ) < 1520 / 17
    ∧ (1520 / 17 : ℚ) < 8942 / 100
    ∧ roundTo1 (1520 / 17) = 894 / 10 := by
  refine ⟨?_, ?_, by norm_num, by norm_num, ?_⟩
  · norm_num [velocidadeValue, JSQ.sub, JSQ.neg, JSQ.add, JSQ.div, JSQ.mul,
      JSQ.jsMin, min_def]
  · norm_num [productivityImprovementSpec]
  · norm_num [roundTo1, round_eq]

/-- C8 (counterexample): with zero completed and zero remaining hours
the effort-progress percentage evaluates to `NaN`, not to a defined
sentinel value such as 0. -/
theorem effortProgress_nan_cex :
    effortProgressPercentage 0 0 = JSQ.nan ∧ JSQ.nan ≠ JSQ.num 0 := by
  constructor
  · norm_num [effortProgressPercentage, JSQ.add, JSQ.div, JSQ.mul, JSQ.jsRound]
  · simp

/-- C8 (amended): the cited ratio is not guarded against a zero
denominator: whenever `completed + remaining = 0`, the effort-progress
percentage is `NaN` (for `completed = 0`) or `±Infinity` (otherwise) —
never a defined finite number. -/
theorem effortProgress_zero_denominator (c r : ℚ) (h : c + r = 0) :
    effortProgressPercentage c r
      = if c = 0 then JSQ.nan else if 0 < c then JSQ.pinf else JSQ.ninf := by
  unfold effortProgressPercentage
  have hadd : JSQ.add (.num c) (.num r) = .num 0 := by simp [JSQ.add, h]
  rw [hadd]
  by_cases hc : c = 0
  · simp [JSQ.div, hc, JSQ.mul, JSQ.jsRound]
  · by_cases hcp : 0 < c
    · simp [JSQ.div, hc, hcp, JSQ.mul, JSQ.jsRound]
    · simp [JSQ.div, hc, hcp, JSQ.mul, JSQ.jsRound]

/-- Witness for C8 (amended) at `completed = 3`, `remaining = -3`. -/
theorem effortProgress_zero_denominator_witness :
    effortProgressPercentage 3 (-3)
      = if (3 : ℚ) = 0 then JSQ.nan else if 0 < (3 : ℚ) then JSQ.pinf else JSQ.ninf :=
  effortProgress_zero_denominator 3 (-3) (by norm_num)

/-- A left fold of addition starting at `c` adds the list sum to `c`. -/
theorem foldl_add_from (xs : List ℝ) (c : ℝ) :
    xs.foldl (fun a b => a + b) c = c + xs.sum := by
  induction xs generalizing c with
  | nil => simp
  | cons x t ih => simp [List.foldl_cons, ih, List.sum_cons]; ring

/-- The reduce-based average of the source equals the spec-side mean. -/
theorem avgHours_eq_meanSpec (xs : List ℝ) : avgHours xs = meanSpec xs := by
  unfold avgHours meanSpec
  rw [foldl_add_from, zero_add]

/-- The reduce-based variance of the source equals the spec-side
population variance. -/
theorem varianceJS_eq (xs : List ℝ) :
    varianceJS xs = ((xs.map (fun x => (x - meanSpec xs) ^ 2)).sum) / xs.length := by
  unfold varianceJS
  rw [avgHours_eq_meanSpec]
  congr 1
  calc xs.foldl (fun acc hour => acc + (hour - meanSpec xs) ^ 2) 0
      = (xs.map (fun x => (x - meanSpec xs) ^ 2)).foldl (fun a b => a + b) 0 := by
        rw [List.foldl_map]
    _ = ((xs.map (fun x => (x - meanSpec xs) ^ 2)).sum) := by
        rw [foldl_add_from, zero_add]

/-- The standard deviation computed by the source equals the spec-side one. -/
theorem standardDeviation_eq (xs : List ℝ) :
    standardDeviation xs = stddevSpec xs := by
  unfold standardDeviation stddevSpec
  rw [varianceJS_eq]

/-- C5 (counterexample): on the non-empty list `[0]` the consistency
score evaluates to `NaN` — it does not equal the clamped spec formula,
which would be a number in `[0, 100]`. -/
theorem consistencyScore_nan_cex :
    consistencyScore [(0 : ℝ)] = JSR.nan
    ∧ JSR.nan ≠ JSR.num (consistencySpec [(0 : ℝ)]) := by
  have havg : avgHours [(0 : ℝ)] = 0 := by simp [avgHours]
  have hvar : varianceJS [(0 : ℝ)] = 0 := by simp [varianceJS, havg]
  have hsd : standardDeviation [(0 : ℝ)] = 0 := by
    simp [standardDeviation, hvar, Real.sqrt_zero]
  constructor
  · simp [consistencyScore, hsd, havg, JSR.div, JSR.mul100, JSR.oneHundredSub,
      JSR.min100, JSR.max0]
  · simp

/-- C5 (amended): for every non-empty list of monthly average-hours
values whose mean is nonzero, the consistency score equals
`100 − (stddev / mean) × 100` clamped to `[0, 100]`, with the arithmetic
mean and the population standard deviation as stated. -/
theorem consistencyScore_eq_clamped (xs : List ℝ) (hne : xs ≠ [])
    (hmean : meanSpec xs ≠ 0) :
    consistencyScore xs = JSR.num (consistencySpec xs) := by
  have hdiv : JSR.div (.num (stddevSpec xs)) (.num (meanSpec xs))
      = .num (stddevSpec xs / meanSpec xs) := by
    simp [JSR.div, hmean]
  simp only [consistencyScore, avgHours_eq_meanSpec, standardDeviation_eq, hdiv]
  simp [JSR.mul100, JSR.oneHundredSub, JSR.min100, JSR.max0, consistencySpec]

/-- Witness for C5 (amended) on the list `[1]`. -/
theorem consistencyScore_eq_clamped_witness :
    consistencyScore [(1 : ℝ)] = JSR.num (consistencySpec [(1 : ℝ)]) :=
  consistencyScore_eq_clamped [1] (by simp) (by simp [meanSpec])
